import Mathlib

/-!
Shallow embedding of the git-backed artifact resolver in `store/git.go`
(`GitArtifactReader` and its helpers `getGitAuth`, `getSSHKeyAuth`,
`getBranchOrTag`, `readFromRepository`, `Read`).

External collaborators (the Kubernetes secret store and the go-git
transport engine) are modelled as oracle functions bundled in `GitEnv`.
Machine-level details follow the Go semantics of the source:
`file.Read(data)` on a nil slice reads zero bytes and returns no error,
go-git's `Worktree.Pull` reports "already up-to-date" as a non-nil error
value (`NoErrAlreadyUpToDate`), and a method call through a nil
`*git.Repository` handle is a panic, surfaced here as the dedicated
failure `GitErr.nilRepositoryPanic` to keep the embedding total.
-/

namespace ArgoStore

/-- Selector for one key of one Kubernetes secret object
(`v1alpha1.GitCreds` refers to two of these). -/
structure SecretKeySelector where
  name : String
  key : String
  deriving DecidableEq, Repr

/-- Basic-auth credential block of the artifact (`artifact.Creds`):
references to the username and password secrets. -/
structure GitCreds where
  username : SecretKeySelector
  password : SecretKeySelector
  deriving DecidableEq, Repr

/-- The `v1alpha1.GitArtifact` configuration consumed by the reader.
Go's zero value for a missing string field is `""`; `Creds` is a
pointer, modelled as `Option`. -/
structure GitArtifact where
  url : String
  cloneDirectory : String
  branch : String
  tag : String
  filePath : String
  creds : Option GitCreds
  sshKeyPath : String
  namespaceName : String
  deriving DecidableEq, Repr

/-- The reader object; the Kubernetes clientset is folded into the
environment's `getSecret` oracle. -/
structure GitArtifactReader where
  artifact : GitArtifact
  deriving DecidableEq, Repr

/-- Resolved `transport.AuthMethod`: either HTTP basic auth or SSH
public-key auth bound to a user name and a parsed signer. -/
inductive AuthMethod where
  | basicAuth (username password : String)
  | sshPublicKeys (user : String) (signer : List Nat)
  deriving DecidableEq, Repr

/-- Structured taxonomy of the `fmt.Errorf` failures in `git.go`,
together with the panic of a nil-repository dereference. -/
inductive GitErr where
  | repositoryOpenFailed (msg : String)
  | cloneFailed (msg : String)
  | secretLookupFailed (msg : String)
  | sshKeyInvalid (msg : String)
  | branchNotFound (branch : String)
  | tagNotFound (tag : String)
  | worktreeUnavailable (msg : String)
  | pullFailed (msg : String)
  | fileOpenFailed (msg : String)
  | fileReadFailed (msg : String)
  | nilRepositoryPanic
  deriving DecidableEq, Repr

/-- Result of go-git's `Worktree.Pull`: a clean update, the non-nil
sentinel error `NoErrAlreadyUpToDate`, or some other transport error. -/
inductive PullResult where
  | ok
  | alreadyUpToDate
  | failed (msg : String)
  deriving DecidableEq, Repr

/-- `git.DefaultSubmoduleRecursionDepth` in go-git v4. -/
def defaultSubmoduleRecursionDepth : Nat := 10

/-- The `git.PullOptions` value built by `readFromRepository`.
`referenceName` keeps Go's zero value `""` when no ref was resolved. -/
structure PullOptions where
  remoteName : String
  recurseSubmodules : Nat
  auth : Option AuthMethod
  referenceName : String
  deriving DecidableEq, Repr

/-- The `git.CloneOptions` value built by `Read`'s clone path. -/
structure CloneOptions where
  url : String
  recurseSubmodules : Nat
  auth : Option AuthMethod
  referenceName : String
  deriving DecidableEq, Repr

/-- The branch entry of the repository configuration returned by
`Repository.Branch`: only its upstream `Merge` reference is used. -/
structure BranchCfg where
  merge : String
  deriving DecidableEq, Repr

/-- The worktree handle: its pull behaviour against `origin` and the
files reachable through `Worktree.Filesystem` (path to full contents,
bytes as `Nat`). -/
structure Worktree where
  pull : PullOptions → PullResult
  files : String → Option (List Nat)

/-- A local repository as the transport engine exposes it to `git.go`:
branch lookup in the configuration (`Repository.Branch`), tag lookup
(`Repository.Tag`, giving the tag's full reference name), and the
worktree handle, `none` when `Repository.Worktree` fails. -/
structure Repository where
  branches : String → Option BranchCfg
  tags : String → Option String
  worktree : Option Worktree

/-- Outcome of `git.PlainOpen`: a repository, the sentinel
`git.ErrRepositoryNotExists`, or any other open failure. -/
inductive OpenResult where
  | opened (r : Repository)
  | notExists
  | otherError (msg : String)

/-- The external collaborators: secret lookup (namespace, secret name,
key), the local filesystem read and key parse used for SSH auth, and
the transport engine's open and clone. -/
structure GitEnv where
  getSecret : String → String → String → Except String String
  readFile : String → Except String (List Nat)
  parsePrivateKey : List Nat → Except String (List Nat)
  plainOpen : String → OpenResult
  plainClone : String → CloneOptions → Except String Repository

/-- Observable side effects of one `Read` call on the transport engine:
a clone into a directory, or a pull with the options that were built. -/
inductive Effect where
  | cloned (dir : String)
  | pulled (opts : PullOptions)
  deriving DecidableEq, Repr

/-- Embedding of `getSSHKeyAuth`: read the private key file, parse it,
and return a public-key auth method bound to user `"git"`. -/
def getSSHKeyAuth (env : GitEnv) (privateSshKeyFile : String) :
    Except GitErr AuthMethod :=
  match env.readFile privateSshKeyFile with
  | .error e => .error (.sshKeyInvalid ("failed to read ssh key file. err: " ++ e))
  | .ok sshKey =>
    match env.parsePrivateKey sshKey with
    | .error e => .error (.sshKeyInvalid ("failed to parse ssh key. err: " ++ e))
    | .ok signer => .ok (.sshPublicKeys "git" signer)

/-- Embedding of `GitArtifactReader.getGitAuth`: basic auth from the two
secret lookups when `Creds` is set, else SSH key auth when a key path is
set, else no auth (`none`). -/
def getGitAuth (env : GitEnv) (a : GitArtifact) :
    Except GitErr (Option AuthMethod) :=
  match a.creds with
  | some creds =>
    match env.getSecret a.namespaceName creds.username.name creds.username.key with
    | .error e => .error (.secretLookupFailed ("failed to retrieve username: err: " ++ e))
    | .ok username =>
      match env.getSecret a.namespaceName creds.password.name creds.password.key with
      | .error e => .error (.secretLookupFailed ("failed to retrieve password: err: " ++ e))
      | .ok password => .ok (some (.basicAuth username password))
  | none =>
    if a.sshKeyPath ≠ "" then
      match getSSHKeyAuth env a.sshKeyPath with
      | .error e => .error e
      | .ok auth => .ok (some auth)
    else
      .ok none

/-- Embedding of `GitArtifactReader.getBranchOrTag`. The repository
handle is `Option` because `Read`'s clone path calls this with the nil
handle left by the failed `PlainOpen`; dereferencing it is the Go panic,
surfaced as `GitErr.nilRepositoryPanic`. -/
def getBranchOrTag (r : Option Repository) (branch tag : String) :
    Except GitErr (Option String) :=
  if branch ≠ "" then
    match r with
    | none => .error .nilRepositoryPanic
    | some repo =>
      match repo.branches branch with
      | none => .error (.branchNotFound branch)
      | some b => .ok (some b.merge)
  else if tag ≠ "" then
    match r with
    | none => .error .nilRepositoryPanic
    | some repo =>
      match repo.tags tag with
      | none => .error (.tagNotFound tag)
      | some refName => .ok (some refName)
  else
    .ok none

/-- Embedding of `GitArtifactReader.readFromRepository`: obtain the
worktree, resolve auth and ref, pull from `origin`, open the target
file, then read it into the nil slice `var data []byte` — per Go's
`io.Reader` contract a read into a zero-length buffer transfers zero
bytes and returns no error, so the returned data is always empty.
Returns the result together with the transport effects performed. -/
def readFromRepository (env : GitEnv) (a : GitArtifact) (r : Repository) :
    Except GitErr (List Nat) × List Effect :=
  match r.worktree with
  | none => (.error (.worktreeUnavailable "failed to get working tree"), [])
  | some w =>
    match getGitAuth env a with
    | .error e => (.error e, [])
    | .ok auth =>
      match getBranchOrTag (some r) a.branch a.tag with
      | .error e => (.error e, [])
      | .ok refName =>
        let pullOpts : PullOptions :=
          { remoteName := "origin"
            recurseSubmodules := defaultSubmoduleRecursionDepth
            auth := auth
            referenceName := refName.getD "" }
        match w.pull pullOpts with
        | .alreadyUpToDate =>
          (.error (.pullFailed ("failed to pull latest updates. err: " ++ "already up-to-date")),
           [.pulled pullOpts])
        | .failed m =>
          (.error (.pullFailed ("failed to pull latest updates. err: " ++ m)),
           [.pulled pullOpts])
        | .ok =>
          match w.files a.filePath with
          | none => (.error (.fileOpenFailed "failed to open resource file"), [.pulled pullOpts])
          | some _contents => (.ok [], [.pulled pullOpts])

deriving instance DecidableEq for Except

/-- Outcome of one `Read` call: the returned bytes or error, the
transport effects performed, and the artifact configuration as it
stands after the call. -/
structure ReadOutcome where
  result : Except GitErr (List Nat)
  effects : List Effect
  artifact : GitArtifact
  deriving DecidableEq, Repr

/-- Embedding of `GitArtifactReader.Read`: open the clone directory; on
`ErrRepositoryNotExists` resolve auth and ref (against the nil handle)
and clone, then fall through to `readFromRepository`; on any other open
failure abort; on success go straight to `readFromRepository`. -/
def Read (env : GitEnv) (g : GitArtifactReader) : ReadOutcome :=
  let a := g.artifact
  match env.plainOpen a.cloneDirectory with
  | .opened r =>
    let res := readFromRepository env a r
    { result := res.1, effects := res.2, artifact := a }
  | .notExists =>
    match getGitAuth env a with
    | .error e => { result := .error e, effects := [], artifact := a }
    | .ok auth =>
      match getBranchOrTag none a.branch a.tag with
      | .error e => { result := .error e, effects := [], artifact := a }
      | .ok refName =>
        let cloneOpt : CloneOptions :=
          { url := a.url
            recurseSubmodules := defaultSubmoduleRecursionDepth
            auth := auth
            referenceName := refName.getD "" }
        match env.plainClone a.cloneDirectory cloneOpt with
        | .error e =>
          { result := .error (.cloneFailed ("failed to clone repository. err: " ++ e))
            effects := [.cloned a.cloneDirectory]
            artifact := a }
        | .ok r =>
          let res := readFromRepository env a r
          { result := res.1, effects := .cloned a.cloneDirectory :: res.2, artifact := a }
  | .otherError m =>
    { result := .error (.repositoryOpenFailed ("failed to open repository. err: " ++ m))
      effects := []
      artifact := a }

end ArgoStore

namespace ArgoStore

/-! Concrete fixtures used by the claim witnesses and counterexamples. -/

/-- Secret provider that answers every lookup with `name ++ "/" ++ key`. -/
def secretsOk : String → String → String → Except String String :=
  fun _nspace name key => .ok (name ++ "/" ++ key)

/-- Worktree whose pull fast-forwards cleanly and which holds one file
`config.yaml` with bytes `[1, 2, 3]`. -/
def wtOk : Worktree :=
  { pull := fun _ => .ok
    files := fun p => if p = "config.yaml" then some [1, 2, 3] else none }

/-- The same worktree after its clone already matches `origin`: the pull
reports `NoErrAlreadyUpToDate`. -/
def wtUpToDate : Worktree :=
  { pull := fun _ => .alreadyUpToDate
    files := fun p => if p = "config.yaml" then some [1, 2, 3] else none }

/-- Repository with branch `main` (upstream merge ref
`refs/heads/main`), tag `v1.0`, and the given worktree. -/
def repoMain (w : Worktree) : Repository :=
  { branches := fun b => if b = "main" then some { merge := "refs/heads/main" } else none
    tags := fun t => if t = "v1.0" then some "refs/tags/v1.0" else none
    worktree := some w }

/-- Environment in which `PlainOpen` always yields the given outcome,
secrets resolve, the SSH key file reads and parses, and `PlainClone`
is rejected by the transport. -/
def envWith (openRes : OpenResult) : GitEnv :=
  { getSecret := secretsOk
    readFile := fun _ => .ok [7]
    parsePrivateKey := fun k => .ok k
    plainOpen := fun _ => openRes
    plainClone := fun _ _ => .error "no clone in this environment" }

/-- The spec example artifact: public repo, branch `main`, file
`config.yaml`, no credentials. -/
def specPlain : GitArtifact :=
  { url := "https://example.com/repo.git"
    cloneDirectory := "/tmp/c1"
    branch := "main"
    tag := ""
    filePath := "config.yaml"
    creds := none
    sshKeyPath := ""
    namespaceName := "default" }

/-- Basic-auth credential block naming the secret `git-sec`. -/
def credsBoth : GitCreds :=
  { username := { name := "git-sec", key := "user" }
    password := { name := "git-sec", key := "pass" } }

end ArgoStore

namespace ArgoStore

/-- C1: the claim says a successful `Read` returns the full contents of
the file at `filePath`. The source reads the file into the nil slice
`var data []byte`, which transfers zero bytes, so a successful `Read`
returns the empty byte sequence even though the opened file holds
`[1, 2, 3]`: the code contradicts the claim (and its own intent, as the
spec's open question notes). -/
theorem C1_successful_read_returns_empty_not_full_contents :
    (Read (envWith (.opened (repoMain wtOk))) ⟨specPlain⟩).result = .ok [] ∧
    wtOk.files specPlain.filePath = some [1, 2, 3] ∧
    (repoMain wtOk).worktree = some wtOk := by
  refine ⟨rfl, rfl, rfl⟩

/-- C2: the claim says a pull that reports "already up to date" is
treated as success. go-git's `Worktree.Pull` reports that case as the
non-nil sentinel error `NoErrAlreadyUpToDate`, and the source treats
every non-nil pull error as fatal, so `Read` fails with the
pull-failed error instead of returning the file content. -/
theorem C2_already_up_to_date_pull_treated_as_failure :
    (Read (envWith (.opened (repoMain wtUpToDate))) ⟨specPlain⟩).result =
      .error (.pullFailed ("failed to pull latest updates. err: " ++ "already up-to-date")) := by
  rfl

/-- C5: the claim says two consecutive `Read` calls with the identical
artifact against an unchanged remote both succeed with byte-identical
content. The first call (local clone behind `origin`) pulls cleanly and
succeeds; it leaves the clone matching `origin`, so the second call's
pull reports "already up-to-date", which the source treats as fatal:
the second call fails with the pull-failed error instead of
succeeding. -/
theorem C5_second_consecutive_read_fails_on_unchanged_remote :
    (Read (envWith (.opened (repoMain wtOk))) ⟨specPlain⟩).result = .ok [] ∧
    (Read (envWith (.opened (repoMain wtUpToDate))) ⟨specPlain⟩).result =
      .error (.pullFailed ("failed to pull latest updates. err: " ++ "already up-to-date")) := by
  refine ⟨rfl, rfl⟩

end ArgoStore

namespace ArgoStore

/-- C3: with an existing repository, a reachable worktree and auth
resolved, a branch name absent from the repository configuration (tag
unset is subsumed: the branch test comes first) makes `Read` fail with
`branchNotFound`, and the call performs no clone and no pull. -/
theorem C3_missing_branch_fails_without_clone_or_pull
    (env : GitEnv) (g : GitArtifactReader) (r : Repository) (w : Worktree)
    (auth : Option AuthMethod)
    (hopen : env.plainOpen g.artifact.cloneDirectory = .opened r)
    (hw : r.worktree = some w)
    (hauth : getGitAuth env g.artifact = .ok auth)
    (hb : g.artifact.branch ≠ "")
    (hmiss : r.branches g.artifact.branch = none) :
    (Read env g).result = .error (.branchNotFound g.artifact.branch) ∧
    (Read env g).effects = [] := by
  have hbt : getBranchOrTag (some r) g.artifact.branch g.artifact.tag =
      .error (.branchNotFound g.artifact.branch) := by
    simp [getBranchOrTag, hb, hmiss]
  constructor <;> simp [Read, readFromRepository, hopen, hw, hauth, hbt]

/-- C3 witness: concrete run with branch `does-not-exist` on the
fixture repository. -/
theorem C3_missing_branch_fails_without_clone_or_pull_witness :
    (Read (envWith (.opened (repoMain wtOk)))
        ⟨{ specPlain with branch := "does-not-exist" }⟩).result =
      .error (.branchNotFound "does-not-exist") ∧
    (Read (envWith (.opened (repoMain wtOk)))
        ⟨{ specPlain with branch := "does-not-exist" }⟩).effects = [] :=
  C3_missing_branch_fails_without_clone_or_pull
    (envWith (.opened (repoMain wtOk)))
    ⟨{ specPlain with branch := "does-not-exist" }⟩
    (repoMain wtOk) wtOk none rfl rfl rfl (by decide) rfl

/-- C4: when the clone directory holds no repository, `Read` builds the
clone options and calls `getBranchOrTag` on the nil repository handle
left by the failed `PlainOpen`; with a branch or tag requested this
dereferences the absent repository, so the call is a guaranteed failure
(the modelled panic) and no clone and no pull happen. -/
theorem C4_clone_path_derefs_nil_repository
    (env : GitEnv) (g : GitArtifactReader) (auth : Option AuthMethod)
    (hopen : env.plainOpen g.artifact.cloneDirectory = .notExists)
    (hauth : getGitAuth env g.artifact = .ok auth)
    (href : g.artifact.branch ≠ "" ∨ g.artifact.tag ≠ "") :
    (Read env g).result = .error .nilRepositoryPanic ∧
    (Read env g).effects = [] := by
  have hbt : getBranchOrTag none g.artifact.branch g.artifact.tag =
      .error .nilRepositoryPanic := by
    by_cases hb : g.artifact.branch = ""
    · rcases href with h | h
      · exact absurd hb h
      · simp [getBranchOrTag, hb, h]
    · simp [getBranchOrTag, hb]
  constructor <;> simp [Read, hopen, hauth, hbt]

/-- C4 witness: concrete run requesting branch `main` against an empty
clone directory. -/
theorem C4_clone_path_derefs_nil_repository_witness :
    (Read (envWith .notExists) ⟨specPlain⟩).result = .error .nilRepositoryPanic ∧
    (Read (envWith .notExists) ⟨specPlain⟩).effects = [] :=
  C4_clone_path_derefs_nil_repository (envWith .notExists) ⟨specPlain⟩ none
    rfl rfl (Or.inl (by decide))

/-- C8: an open failure other than "repository does not exist" makes
`Read` fail with the repository-open error, and no clone (and no pull)
is attempted. -/
theorem C8_other_open_error_aborts_without_clone
    (env : GitEnv) (g : GitArtifactReader) (m : String)
    (hopen : env.plainOpen g.artifact.cloneDirectory = .otherError m) :
    (Read env g).result =
      .error (.repositoryOpenFailed ("failed to open repository. err: " ++ m)) ∧
    (Read env g).effects = [] := by
  constructor <;> simp [Read, hopen]

/-- C8 witness: concrete run where opening the clone directory fails
with a permission error. -/
theorem C8_other_open_error_aborts_without_clone_witness :
    (Read (envWith (.otherError "permission denied")) ⟨specPlain⟩).result =
      .error (.repositoryOpenFailed ("failed to open repository. err: " ++ "permission denied")) ∧
    (Read (envWith (.otherError "permission denied")) ⟨specPlain⟩).effects = [] :=
  C8_other_open_error_aborts_without_clone
    (envWith (.otherError "permission denied")) ⟨specPlain⟩ "permission denied" rfl

end ArgoStore

namespace ArgoStore

/-- C6: with a basic-auth credential block configured (even when an SSH
key path is also populated), auth resolution returns the basic-auth
credential built from the two secret lookups, never an SSH credential,
and its outcome depends only on the secret provider — the SSH key is
never read. -/
theorem C6_basic_auth_precedes_ssh
    (env : GitEnv) (a : GitArtifact) (c : GitCreds)
    (hc : a.creds = some c) :
    (∀ u p, env.getSecret a.namespaceName c.username.name c.username.key = .ok u →
        env.getSecret a.namespaceName c.password.name c.password.key = .ok p →
        getGitAuth env a = .ok (some (.basicAuth u p))) ∧
    (∀ user s, getGitAuth env a ≠ .ok (some (.sshPublicKeys user s))) ∧
    (∀ env' : GitEnv, env'.getSecret = env.getSecret →
        getGitAuth env' a = getGitAuth env a) := by
  refine ⟨?_, ?_, ?_⟩
  · intro u p hu hp
    simp [getGitAuth, hc, hu, hp]
  · intro user s
    cases hu : env.getSecret a.namespaceName c.username.name c.username.key with
    | error e => simp [getGitAuth, hc, hu]
    | ok u =>
      cases hp : env.getSecret a.namespaceName c.password.name c.password.key with
      | error e => simp [getGitAuth, hc, hu, hp]
      | ok p => simp [getGitAuth, hc, hu, hp]
  · intro env' h
    simp [getGitAuth, hc, h]

/-- C6 witness: both the credential block and an SSH key path set; the
resolved method is the basic-auth pair from the secret lookups. -/
theorem C6_basic_auth_precedes_ssh_witness :
    getGitAuth (envWith .notExists)
        { specPlain with creds := some credsBoth, sshKeyPath := "/root/.ssh/id_rsa" } =
      .ok (some (.basicAuth "git-sec/user" "git-sec/pass")) :=
  (C6_basic_auth_precedes_ssh (envWith .notExists)
      { specPlain with creds := some credsBoth, sshKeyPath := "/root/.ssh/id_rsa" }
      credsBoth rfl).1 "git-sec/user" "git-sec/pass" rfl rfl

/-- C7: with both branch and tag non-empty, reference resolution is
decided by the branch alone: a configured branch yields its upstream
merge reference, a missing branch yields `branchNotFound`, and the
result is unchanged under any replacement of the repository's tags —
the tag's reference name is never returned. -/
theorem C7_branch_precedes_tag
    (r : Repository) (branch tag : String)
    (hb : branch ≠ "") (_ht : tag ≠ "") :
    (∀ b, r.branches branch = some b →
        getBranchOrTag (some r) branch tag = .ok (some b.merge)) ∧
    (r.branches branch = none →
        getBranchOrTag (some r) branch tag = .error (.branchNotFound branch)) ∧
    (∀ tags' : String → Option String,
        getBranchOrTag (some { r with tags := tags' }) branch tag =
          getBranchOrTag (some r) branch tag) := by
  refine ⟨?_, ?_, ?_⟩
  · intro b hfound
    simp [getBranchOrTag, hb, hfound]
  · intro hmiss
    simp [getBranchOrTag, hb, hmiss]
  · intro tags'
    simp [getBranchOrTag, hb]

/-- C7 witness: branch `main` and tag `v1.0` both set on the fixture
repository; resolution returns `main`'s merge reference. -/
theorem C7_branch_precedes_tag_witness :
    getBranchOrTag (some (repoMain wtOk)) "main" "v1.0" = .ok (some "refs/heads/main") :=
  (C7_branch_precedes_tag (repoMain wtOk) "main" "v1.0" (by decide) (by decide)).1
    { merge := "refs/heads/main" } rfl

end ArgoStore


namespace ArgoStore

/-- C9: with a basic-auth credential block configured and the secret
provider failing on the username lookup or on the password lookup,
`Read` fails with the secret-lookup error and performs no clone and no
pull — in both the existing-repository path (given a reachable
worktree) and the clone path, auth resolution precedes any transport
operation. -/
theorem C9_secret_failure_aborts_without_clone_or_pull
    (env : GitEnv) (g : GitArtifactReader) (c : GitCreds)
    (hc : g.artifact.creds = some c)
    (hrepo : env.plainOpen g.artifact.cloneDirectory = .notExists ∨
      ∃ r w, env.plainOpen g.artifact.cloneDirectory = .opened r ∧ r.worktree = some w)
    (hfail : (∃ e, env.getSecret g.artifact.namespaceName c.username.name c.username.key =
          .error e) ∨
      (∃ u e, env.getSecret g.artifact.namespaceName c.username.name c.username.key = .ok u ∧
        env.getSecret g.artifact.namespaceName c.password.name c.password.key = .error e)) :
    (∃ m, (Read env g).result = .error (.secretLookupFailed m)) ∧
    (Read env g).effects = [] := by
  obtain ⟨m, hm⟩ : ∃ m, getGitAuth env g.artifact = .error (.secretLookupFailed m) := by
    rcases hfail with ⟨e, he⟩ | ⟨u, e, hu, he⟩
    · exact ⟨"failed to retrieve username: err: " ++ e, by simp [getGitAuth, hc, he]⟩
    · exact ⟨"failed to retrieve password: err: " ++ e, by simp [getGitAuth, hc, hu, he]⟩
  rcases hrepo with h | ⟨r, w, hr, hw⟩
  · exact ⟨⟨m, by simp [Read, h, hm]⟩, by simp [Read, h, hm]⟩
  · exact ⟨⟨m, by simp [Read, readFromRepository, hr, hw, hm]⟩,
      by simp [Read, readFromRepository, hr, hw, hm]⟩

/-- C9 witness: secret provider that rejects every lookup; the run with
credentials configured fails with the secret-lookup error and performs
no transport effect. -/
theorem C9_secret_failure_aborts_without_clone_or_pull_witness :
    (∃ m, (Read { envWith .notExists with getSecret := fun _ _ _ => .error "secret missing" }
        ⟨{ specPlain with creds := some credsBoth }⟩).result =
          .error (.secretLookupFailed m)) ∧
    (Read { envWith .notExists with getSecret := fun _ _ _ => .error "secret missing" }
        ⟨{ specPlain with creds := some credsBoth }⟩).effects = [] :=
  C9_secret_failure_aborts_without_clone_or_pull
    { envWith .notExists with getSecret := fun _ _ _ => .error "secret missing" }
    ⟨{ specPlain with creds := some credsBoth }⟩ credsBoth rfl
    (Or.inl rfl) (Or.inl ⟨"secret missing", rfl⟩)

/-- C10: `Read` never mutates the artifact configuration — the artifact
carried out of the call equals the artifact that went in, on every path
(success, every error, clone path and open path alike). -/
theorem C10_read_preserves_artifact (env : GitEnv) (g : GitArtifactReader) :
    (Read env g).artifact = g.artifact := by
  unfold Read
  dsimp only
  split
  · rfl
  · split
    · rfl
    · split
      · rfl
      · split <;> rfl
  · rfl

end ArgoStore
